import Mathlib

/-!
# Verification of the PDF translation service (`src/server.py`)

Shallow embedding of the asynchronous job pipeline of `server.py`:

* `Job` mirrors the Python dict stored at `jobs[job_id]`; keys the code never
  wrote are `none`.
* The two background workers `translate_page_async` and
  `translate_full_pdf_async` are embedded as functions from an environment
  (the outcomes of every external interaction: S3, the input fetch, the
  `babeldoc` subprocess, the upload) to the ordered list of snapshots of
  `jobs[job_id]` — one snapshot per Python assignment to the dict — together
  with the ordered list of externally visible actions (`Event`).
* The HTTP handlers `translate_page`, `translate`, `status` and `download`
  are embedded as pure functions over an association list playing the role of
  the global `jobs` dict.
* `send_callback` is embedded over an explicit delivery outcome; the job
  registry is threaded through it unchanged to express the frame property
  (the Python function never touches `jobs`).

Machine strings are Lean `String`s, Python `int`s are `Int`/`Nat` (all the
progress constants are small naturals), absent dict keys / `None` are
`Option`.
-/

/-- Python truthiness of an optional string: `None` and `""` are falsy
(`if not pdf_url`, `if not callback_url`, `if translated_url:` ...). -/
def truthyStr : Option String → Bool
  | none => false
  | some s => !(s == "")

/-- Rendering of an optional string inside an f-string: Python prints `None`
for a missing value (`f"books/{book_id}/..."` with `book_id = None`). -/
def optStr : Option String → String
  | none => "None"
  | some s => s

/-- The URL `upload_to_s3` / `check_s3_exists` build:
`https://{bucket}.s3.{region}.amazonaws.com/{key}`. -/
def s3Url (bucket region key : String) : String :=
  "https://" ++ bucket ++ ".s3." ++ region ++ ".amazonaws.com/" ++ key

/-- The deterministic per-page cache key
`books/{book_id}/translated_pages/page_{page_number}_{target_lang}.pdf`
(lines 124 and 450 of `server.py`). -/
def pageCacheKey (book_id : Option String) (page_number : Int) (target_lang : String) : String :=
  "books/" ++ optStr book_id ++ "/translated_pages/page_" ++ toString page_number
    ++ "_" ++ target_lang ++ ".pdf"

/-- The S3 key the full-PDF worker uploads to:
`books/{book_id}/translated_{timestamp}.pdf` (line 341). -/
def fullS3Key (book_id : Option String) (timestamp : Nat) : String :=
  "books/" ++ optStr book_id ++ "/translated_" ++ toString timestamp ++ ".pdf"

/-- Python string slicing `s[:n]` (used as `result.stderr[:500]`): the first
`n` characters. -/
def pySlice (n : Nat) (s : String) : String :=
  ⟨s.data.take n⟩

/-- One record of the in-memory registry `jobs` — the dict stored at
`jobs[job_id]`. A field is `none` when the corresponding key is absent. -/
structure Job where
  status : String
  progress : Nat
  book_id : Option String
  page_number : Option Int
  created_at : Nat
  translated_url : Option String
  error : Option String
  file_path : Option String
  deriving Repr, DecidableEq

/-- The JSON payload `send_callback` builds (lines 370–379): keys are present
exactly when the source adds them (`progress is not None`, truthy
`translated_url`, truthy `error`, `page_number is not None`). -/
structure CallbackPayload where
  bookId : Option String
  status : String
  progress : Option Nat
  translatedFileUrl : Option String
  translatedUrl : Option String
  error : Option String
  pageNumber : Option Int
  deriving Repr, DecidableEq

/-- Payload construction of `send_callback`. -/
def mkPayload (book_id : Option String) (status : String) (progress : Option Nat)
    (translated_url : Option String) (error : Option String)
    (page_number : Option Int) : CallbackPayload :=
  { bookId := book_id
    status := status
    progress := progress
    translatedFileUrl := if truthyStr translated_url then translated_url else none
    translatedUrl := if truthyStr translated_url then translated_url else none
    error := if truthyStr error then error else none
    pageNumber := page_number }

/-- Externally visible actions of a worker, in program order.
A `callbackCall` records the arguments the worker passes to `send_callback`. -/
inductive Event where
  | checkCache (key : String) (hit : Bool)
  | fetchInput (url : String)
  | runTransform (pagesArg : Option Int) (langOut : String)
  | uploadArtifact (key : String)
  | removeWorkDir
  | callbackCall (status : String) (progress : Option Nat)
      (translated_url : Option String) (error : Option String)
      (page_number : Option Int)
  deriving Repr, DecidableEq

/-- Is the event a cache probe (`check_s3_exists`)? -/
def Event.isCheckCache : Event → Bool
  | .checkCache _ _ => true
  | _ => false

/-- Is the event an invocation of the external transformation
(`subprocess.run(["babeldoc", ...])`)? -/
def Event.isRunTransform : Event → Bool
  | .runTransform _ _ => true
  | _ => false

/-- The S3 key of an upload event, if this is one. -/
def Event.uploadKey? : Event → Option String
  | .uploadArtifact k => some k
  | _ => none

/-- Outcomes of every external interaction a worker performs; a worker run is
a pure function of this record.  `store` is the content of S3 at probe time
(`check_s3_exists` returns a URL iff `head_object` succeeds). -/
structure WorkerEnv where
  babeldoc_available : Bool
  babeldoc_error : String
  bucket : String
  region : String
  store : String → Bool
  download_ok : Bool
  download_error : String
  api_key : String
  transform_exc : Option String
  returncode : Int
  stderr : String
  output_files : List String
  upload_exc : Option String
  timestamp : Nat

/-- `check_s3_exists` (lines 100–110): the cached object's URL when
`head_object` succeeds, `None` on any exception. -/
def check_s3_exists (env : WorkerEnv) (key : String) : Option String :=
  if env.store key then some (s3Url env.bucket env.region key) else none

/-- The `except` handler shared by both workers (lines 240–249 / 354–361):
sets `status = "failed"`, then `error = str(e)`, sends the failure callback,
and removes the scratch directory when one was created. `prev` are the
registry snapshots written before the exception, `cur` the registry value at
the time of the exception. -/
def failSteps (prev : List Job) (cur : Job) (evs : List Event) (msg : String)
    (page_number : Option Int) (dirMade : Bool) : List Job × List Event :=
  (prev ++ [{ cur with status := "failed" },
            { cur with status := "failed", error := some msg }],
   evs ++ Event.callbackCall "failed" none none (some msg) page_number ::
     (if dirMade then [Event.removeWorkDir] else []))

/-- `translate_page_async` (lines 112–249): snapshots of `jobs[job_id]` after
each assignment, and the worker's external actions, given the job's initial
registry value `j0` and the request parameters. -/
def translate_page_async (env : WorkerEnv) (j0 : Job) (pdf_url : String)
    (page_number : Int) (target_lang : String) (book_id : Option String) :
    List Job × List Event :=
  if !env.babeldoc_available then
    failSteps [] j0 [] ("babeldoc is not available: " ++ env.babeldoc_error)
      (some page_number) false
  else
    let j1 : Job := { j0 with status := "processing" }
    let j2 : Job := { j1 with progress := 10 }
    let evs1 : List Event :=
      [Event.callbackCall "processing" (some 10) none none (some page_number)]
    let cache_key := pageCacheKey book_id page_number target_lang
    match check_s3_exists env cache_key with
    | some cached_url =>
      let j3 : Job := { j2 with status := "completed" }
      let j4 : Job := { j3 with progress := 100 }
      let j5 : Job := { j4 with translated_url := some cached_url }
      ([j1, j2, j3, j4, j5],
       evs1 ++ [Event.checkCache cache_key true,
                Event.callbackCall "completed" none (some cached_url) none (some page_number)])
    | none =>
      let evs2 := evs1 ++ [Event.checkCache cache_key false, Event.fetchInput pdf_url]
      if !env.download_ok then
        failSteps [j1, j2] j2 evs2 env.download_error (some page_number) true
      else
        let j3 : Job := { j2 with progress := 20 }
        let evs3 := evs2 ++
          [Event.callbackCall "processing" (some 20) none none (some page_number)]
        let j4 : Job := { j3 with progress := 30 }
        if env.api_key == "" then
          failSteps [j1, j2, j3, j4] j4 evs3 "OPENAI_API_KEY not configured"
            (some page_number) true
        else
          let evs4 := evs3 ++ [Event.runTransform (some page_number) target_lang]
          match env.transform_exc with
          | some e => failSteps [j1, j2, j3, j4] j4 evs4 e (some page_number) true
          | none =>
            if env.returncode != 0 then
              failSteps [j1, j2, j3, j4] j4 evs4
                ("babeldoc failed: " ++ pySlice 500 env.stderr) (some page_number) true
            else
              let j5 : Job := { j4 with progress := 80 }
              match env.output_files with
              | [] =>
                failSteps [j1, j2, j3, j4, j5] j5 evs4
                  "No output PDF found after translation" (some page_number) true
              | _ :: _ =>
                let j6 : Job := { j5 with progress := 90 }
                let evs5 := evs4 ++ [Event.uploadArtifact cache_key]
                match env.upload_exc with
                | some e =>
                  failSteps [j1, j2, j3, j4, j5, j6] j6 evs5 e (some page_number) true
                | none =>
                  let translated_url := s3Url env.bucket env.region cache_key
                  let evs6 := evs5 ++ [Event.removeWorkDir]
                  let j7 : Job := { j6 with status := "completed" }
                  let j8 : Job := { j7 with progress := 100 }
                  let j9 : Job := { j8 with translated_url := some translated_url }
                  ([j1, j2, j3, j4, j5, j6, j7, j8, j9],
                   evs6 ++ [Event.callbackCall "completed" none (some translated_url)
                              none (some page_number)])

/-- `translate_full_pdf_async` (lines 252–361): the full-PDF worker.  It has
no cache probe, sends a progress-30 callback, has no progress-80 write, and
uploads under the timestamped key `books/{book_id}/translated_{timestamp}.pdf`. -/
def translate_full_pdf_async (env : WorkerEnv) (j0 : Job) (pdf_url : String)
    (target_lang : String) (book_id : Option String) :
    List Job × List Event :=
  if !env.babeldoc_available then
    failSteps [] j0 [] ("babeldoc is not available: " ++ env.babeldoc_error)
      none false
  else
    let j1 : Job := { j0 with status := "processing" }
    let j2 : Job := { j1 with progress := 10 }
    let evs1 : List Event :=
      [Event.callbackCall "processing" (some 10) none none none]
    let evs2 := evs1 ++ [Event.fetchInput pdf_url]
    if !env.download_ok then
      failSteps [j1, j2] j2 evs2 env.download_error none true
    else
      let j3 : Job := { j2 with progress := 20 }
      let evs3 := evs2 ++ [Event.callbackCall "processing" (some 20) none none none]
      let j4 : Job := { j3 with progress := 30 }
      let evs4 := evs3 ++ [Event.callbackCall "processing" (some 30) none none none]
      if env.api_key == "" then
        failSteps [j1, j2, j3, j4] j4 evs4 "OPENAI_API_KEY not configured" none true
      else
        let evs5 := evs4 ++ [Event.runTransform none target_lang]
        match env.transform_exc with
        | some e => failSteps [j1, j2, j3, j4] j4 evs5 e none true
        | none =>
          if env.returncode != 0 then
            failSteps [j1, j2, j3, j4] j4 evs5
              ("babeldoc failed: " ++ pySlice 500 env.stderr) none true
          else
            match env.output_files with
            | [] =>
              failSteps [j1, j2, j3, j4] j4 evs5
                "No output PDF found after translation" none true
            | _ :: _ =>
              let j5 : Job := { j4 with progress := 90 }
              let s3_key := fullS3Key book_id env.timestamp
              let evs6 := evs5 ++ [Event.uploadArtifact s3_key]
              match env.upload_exc with
              | some e => failSteps [j1, j2, j3, j4, j5] j5 evs6 e none true
              | none =>
                let translated_url := s3Url env.bucket env.region s3_key
                let evs7 := evs6 ++ [Event.removeWorkDir]
                let j6 : Job := { j5 with status := "completed" }
                let j7 : Job := { j6 with progress := 100 }
                let j8 : Job := { j7 with translated_url := some translated_url }
                ([j1, j2, j3, j4, j5, j6, j7, j8],
                 evs7 ++ [Event.callbackCall "completed" none (some translated_url)
                            none none])

/-- All values `jobs[job_id]` takes during a page job's life: the value the
dispatcher stored, then each worker write. -/
def pageTrace (env : WorkerEnv) (j0 : Job) (pdf_url : String) (page_number : Int)
    (target_lang : String) (book_id : Option String) : List Job :=
  j0 :: (translate_page_async env j0 pdf_url page_number target_lang book_id).1

/-- All values `jobs[job_id]` takes during a full-PDF job's life. -/
def fullTrace (env : WorkerEnv) (j0 : Job) (pdf_url : String)
    (target_lang : String) (book_id : Option String) : List Job :=
  j0 :: (translate_full_pdf_async env j0 pdf_url target_lang book_id).1

/-- Body of a `POST /translate/page` request (`data.get(...)`; an absent key
is `none`). -/
structure PageRequest where
  bookId : Option String
  pdfUrl : Option String
  pageNumber : Option Int
  targetLang : Option String
  callbackUrl : Option String
  deriving Repr, DecidableEq

/-- Body of a `POST /translate` request. -/
structure FullRequest where
  bookId : Option String
  pdfUrl : Option String
  targetLang : Option String
  callbackUrl : Option String
  deriving Repr, DecidableEq

/-- Responses of the two submit endpoints.  `unavailable` is the 503 branch,
`badRequest` the 400 validation branch, `cachedCompleted` the synchronous
cache-hit response of `/translate/page`, and `accepted` the response after a
job was created — carrying the literal `status` string the handler returns. -/
inductive SubmitResponse where
  | unavailable (details : String)
  | badRequest (msg : String)
  | cachedCompleted (pageNumber : Int) (translatedUrl : String)
  | accepted (jobId : String) (status : String) (pageNumber : Option Int)
  deriving Repr, DecidableEq

/-- Ambient state a submit handler depends on: the `babeldoc` probe result,
the S3 configuration and contents at request time, the fresh
`uuid.uuid4()` value and `time.time()`. -/
structure DispatchEnv where
  babeldoc_available : Bool
  babeldoc_error : String
  bucket : String
  region : String
  store : String → Bool
  new_job_id : String
  now : Nat

/-- The registry entry `/translate/page` creates (lines 463–469). -/
def mkPendingPageJob (book_id : Option String) (page_number : Int) (now : Nat) : Job :=
  { status := "pending", progress := 0, book_id := book_id,
    page_number := some page_number, created_at := now,
    translated_url := none, error := none, file_path := none }

/-- The registry entry `/translate` creates (lines 506–511). -/
def mkPendingFullJob (book_id : Option String) (now : Nat) : Job :=
  { status := "pending", progress := 0, book_id := book_id,
    page_number := none, created_at := now,
    translated_url := none, error := none, file_path := none }

/-- `POST /translate/page` handler (lines 429–483).  Returns the response,
the updated registry, and whether a worker thread was started.  The guard
`not pdf_url or not book_id or page_number is None` is a single 400 branch;
after it `pageNumber` is known to be present, so `getD 0` reads its value. -/
def translate_page (env : DispatchEnv) (req : PageRequest)
    (jobs : List (String × Job)) :
    SubmitResponse × List (String × Job) × Bool :=
  if !env.babeldoc_available then
    (.unavailable env.babeldoc_error, jobs, false)
  else
    let target_lang := req.targetLang.getD "zh"
    if !truthyStr req.pdfUrl || !truthyStr req.bookId || req.pageNumber.isNone then
      (.badRequest "pdfUrl, bookId and pageNumber are required", jobs, false)
    else
      let pn := req.pageNumber.getD 0
      let cache_key := pageCacheKey req.bookId pn target_lang
      if env.store cache_key then
        (.cachedCompleted pn (s3Url env.bucket env.region cache_key), jobs, false)
      else
        (.accepted env.new_job_id "processing" (some pn),
         (env.new_job_id, mkPendingPageJob req.bookId pn env.now) :: jobs, true)

/-- `POST /translate` handler (lines 486–524).  Only `pdfUrl` is validated;
the response's `status` field is the literal `"pending"`.  (Named
`translateFull` because plain `translate` collides with a Mathlib name.) -/
def translateFull (env : DispatchEnv) (req : FullRequest)
    (jobs : List (String × Job)) :
    SubmitResponse × List (String × Job) × Bool :=
  if !env.babeldoc_available then
    (.unavailable env.babeldoc_error, jobs, false)
  else if !truthyStr req.pdfUrl then
    (.badRequest "pdfUrl is required", jobs, false)
  else
    (.accepted env.new_job_id "pending" none,
     (env.new_job_id, mkPendingFullJob req.bookId env.now) :: jobs, true)

/-- The JSON body `GET /status/<job_id>` returns on success (lines 533–540). -/
structure StatusView where
  jobId : String
  status : String
  progress : Nat
  pageNumber : Option Int
  translatedUrl : Option String
  error : Option String
  deriving Repr, DecidableEq

/-- `GET /status/<job_id>` handler (lines 527–540): 404 for an unknown id,
otherwise a view of the current registry record. -/
def status (jobs : List (String × Job)) (job_id : String) :
    Except String StatusView :=
  match jobs.lookup job_id with
  | none => .error "Job not found"
  | some job =>
    .ok { jobId := job_id, status := job.status, progress := job.progress,
          pageNumber := job.page_number, translatedUrl := job.translated_url,
          error := job.error }

/-- Result of `GET /download/<job_id>`. -/
inductive DownloadResult where
  | notFound (msg : String)
  | fileResponse (path : String) (download_name : String)
  deriving Repr, DecidableEq

/-- `GET /download/<job_id>` handler (lines 543–559).  `fs_exists` is
`os.path.exists`; the guard is `not file_path or not os.path.exists(file_path)`. -/
def download (fs_exists : String → Bool) (jobs : List (String × Job))
    (job_id : String) : DownloadResult :=
  match jobs.lookup job_id with
  | none => .notFound "Job not found"
  | some job =>
    if !truthyStr job.file_path || !fs_exists (job.file_path.getD "") then
      .notFound "File not found"
    else
      .fileResponse (job.file_path.getD "") ("translated_" ++ job_id ++ ".pdf")

/-- Outcome of the one network call `send_callback` makes:
`requests.post` either raises (`.error`) or returns a status code (`.ok`). -/
structure NotifyEnv where
  bypass_secret : Option String
  post_result : Except String Nat

/-- `send_callback` (lines 364–395), with the job registry threaded through
to express its frame: the Python function never reads or writes `jobs`.
The whole body sits in `try/except Exception` whose handler only logs, so a
raising `requests.post` still yields a normal return — hence the `Except`
result collapses every branch to `.ok`.  The returned payload is the one the
call attempted to deliver (`none` when no callback URL was supplied). -/
def send_callback (env : NotifyEnv) (callback_url : Option String)
    (book_id : Option String) (status : String) (progress : Option Nat)
    (translated_url : Option String) (error : Option String)
    (page_number : Option Int) (jobs : List (String × Job)) :
    Except String (List (String × Job) × Option CallbackPayload) :=
  if !truthyStr callback_url then
    .ok (jobs, none)
  else
    let payload := mkPayload book_id status progress translated_url error page_number
    match env.post_result with
    | .ok _code => .ok (jobs, some payload)
    | .error _e => .ok (jobs, some payload)

/-! ## Theorems -/

/-- The progress values recorded while a trace's status is `"processing"`. -/
def processingProgress (tr : List Job) : List Nat :=
  (tr.filter (fun j => j.status == "processing")).map Job.progress

/-- C6: for every job, the progress values written while the status is
`processing` form a non-decreasing sequence, for both the single-page and the
full-PDF worker, starting from the registry entry the dispatcher created. -/
theorem progress_monotone_while_processing
    (env : WorkerEnv) (pdf_url : String) (pn : Int) (lang : String)
    (bid : Option String) (now ts : Nat) :
    List.Chain' (· ≤ ·)
      (processingProgress (pageTrace env (mkPendingPageJob bid pn now) pdf_url pn lang bid)) ∧
    List.Chain' (· ≤ ·)
      (processingProgress (fullTrace env (mkPendingFullJob bid ts) pdf_url lang bid)) := by
  obtain ⟨avail, berr, bucket, region, store, dlok, dlerr, apikey, texc, rc, stde, ofiles, uexc, tstamp⟩ := env
  constructor
  · cases avail <;> cases hstore : store (pageCacheKey bid pn lang) <;> cases dlok <;>
      by_cases hkey : apikey = "" <;> cases texc <;> by_cases hrc : rc = 0 <;>
      cases ofiles <;> cases uexc <;>
      simp [pageTrace, translate_page_async, check_s3_exists, failSteps,
        mkPendingPageJob, processingProgress, hstore, hkey, hrc]
  · cases avail <;> cases dlok <;>
      by_cases hkey : apikey = "" <;> cases texc <;> by_cases hrc : rc = 0 <;>
      cases ofiles <;> cases uexc <;>
      simp [fullTrace, translate_full_pdf_async, failSteps,
        mkPendingFullJob, processingProgress, hkey, hrc]

/-- A worker environment in which the input fetch fails (everything else
nominal): `requests.get` raises, the job ends `failed`. -/
def envFetchFail : WorkerEnv :=
  { babeldoc_available := true, babeldoc_error := "", bucket := "bkt",
    region := "ap-southeast-1", store := fun _ => false, download_ok := false,
    download_error := "connection refused", api_key := "k",
    transform_exc := none, returncode := 0, stderr := "",
    output_files := [], upload_exc := none, timestamp := 0 }

/-- The transient registry value the counterexample exhibits: terminal
status, neither result field set. -/
def jFailedTransient : Job :=
  { status := "failed", progress := 10, book_id := some "b",
    page_number := some 1, created_at := 0, translated_url := none,
    error := none, file_path := none }

/-- C1, counterexample: the claim fails on the registry value written between
the `status = "failed"` assignment (line 242) and the `error` assignment
(line 243): that snapshot has terminal status with neither `translated_url`
nor `error` set.  (The analogous window exists on the success path, lines
232-234.) -/
theorem terminal_exactly_one_counterexample :
    ¬ (∀ j ∈ pageTrace envFetchFail (mkPendingPageJob (some "b") 1 0)
          "http://pdf" 1 "zh" (some "b"),
        (j.status = "completed" ∨ j.status = "failed") →
          (j.translated_url.isSome ∧ j.error = none) ∨
          (j.error.isSome ∧ j.translated_url = none)) := by
  intro h
  have hmem : jFailedTransient ∈
      pageTrace envFetchFail (mkPendingPageJob (some "b") 1 0)
        "http://pdf" 1 "zh" (some "b") := by
    simp [pageTrace, translate_page_async, check_s3_exists, failSteps,
      mkPendingPageJob, envFetchFail, jFailedTransient]
  simpa [jFailedTransient] using h _ hmem

set_option maxHeartbeats 2000000 in
/-- C1, amended: (i) while a job is `pending` or `processing` neither
`translated_url` nor `error` is set; (ii) at no point are both set; (iii) the
final registry value of every worker run is terminal with exactly one of the
two set (`translated_url` iff `completed`, `error` iff `failed`).  Only
transiently — between the terminal-status write and the write of the
corresponding field — does a terminal status coexist with neither field set. -/
theorem terminal_exactly_one_amended
    (env : WorkerEnv) (pdf_url : String) (pn : Int) (lang : String)
    (bid : Option String) (now ts : Nat) :
    ((∀ j ∈ pageTrace env (mkPendingPageJob bid pn now) pdf_url pn lang bid,
       ((j.status = "pending" ∨ j.status = "processing") →
           j.translated_url = none ∧ j.error = none) ∧
       ¬(j.translated_url.isSome ∧ j.error.isSome)) ∧
     ((pageTrace env (mkPendingPageJob bid pn now) pdf_url pn lang bid).getLastD
        (mkPendingPageJob bid pn now) |> fun jl =>
       (jl.status = "completed" ∧ jl.translated_url.isSome ∧ jl.error = none) ∨
       (jl.status = "failed" ∧ jl.error.isSome ∧ jl.translated_url = none))) ∧
    ((∀ j ∈ fullTrace env (mkPendingFullJob bid ts) pdf_url lang bid,
       ((j.status = "pending" ∨ j.status = "processing") →
           j.translated_url = none ∧ j.error = none) ∧
       ¬(j.translated_url.isSome ∧ j.error.isSome)) ∧
     ((fullTrace env (mkPendingFullJob bid ts) pdf_url lang bid).getLastD
        (mkPendingFullJob bid ts) |> fun jl =>
       (jl.status = "completed" ∧ jl.translated_url.isSome ∧ jl.error = none) ∨
       (jl.status = "failed" ∧ jl.error.isSome ∧ jl.translated_url = none))) := by
  obtain ⟨avail, berr, bucket, region, store, dlok, dlerr, apikey, texc, rc, stde,
    ofiles, uexc, tstamp⟩ := env
  constructor
  · cases avail <;> cases hstore : store (pageCacheKey bid pn lang) <;> cases dlok <;>
      by_cases hkey : apikey = "" <;> cases texc <;> by_cases hrc : rc = 0 <;>
      cases ofiles <;> cases uexc <;>
      simp [pageTrace, translate_page_async, check_s3_exists, failSteps,
        mkPendingPageJob, hstore, hkey, hrc]
  · cases avail <;> cases dlok <;>
      by_cases hkey : apikey = "" <;> cases texc <;> by_cases hrc : rc = 0 <;>
      cases ofiles <;> cases uexc <;>
      simp [fullTrace, translate_full_pdf_async, failSteps,
        mkPendingFullJob, hkey, hrc]

/-- Witness instantiating C1's amended theorem at a concrete run. -/
theorem terminal_exactly_one_amended_witness :
    ¬(jFailedTransient.translated_url.isSome ∧ jFailedTransient.error.isSome) :=
  ((terminal_exactly_one_amended envFetchFail "http://pdf" 1 "zh" (some "b") 0 0).1.1
    jFailedTransient (by
      simp [pageTrace, translate_page_async, check_s3_exists, failSteps,
        mkPendingPageJob, envFetchFail, jFailedTransient])).2

/-- A worker environment in which every S3 key already holds an artifact and
every external step succeeds. -/
def envAllCached : WorkerEnv :=
  { babeldoc_available := true, babeldoc_error := "", bucket := "bkt",
    region := "ap-southeast-1", store := fun _ => true, download_ok := true,
    download_error := "", api_key := "k", transform_exc := none,
    returncode := 0, stderr := "", output_files := ["out.pdf"],
    upload_exc := none, timestamp := 42 }

/-- C2, counterexample: a full-PDF job whose result is already cached
(`envAllCached.store` is constantly `true`, so the artifact for any cache key
exists).  The claim fails on it: the full-PDF worker performs no cache probe
at all and still invokes the external transformation. -/
theorem worker_cache_recheck_counterexample :
    (translate_full_pdf_async envAllCached (mkPendingFullJob (some "b") 0)
        "http://pdf" "zh" (some "b")).2.filter Event.isCheckCache = [] ∧
    Event.runTransform none "zh" ∈
      (translate_full_pdf_async envAllCached (mkPendingFullJob (some "b") 0)
        "http://pdf" "zh" (some "b")).2 := by
  refine ⟨?_, ?_⟩ <;>
    simp [translate_full_pdf_async, failSteps, mkPendingFullJob, envAllCached,
      Event.isCheckCache]

/-- C2, amended: the single-page worker, after moving the job to
`processing`, re-probes the cache under the job's deterministic key; on a hit
it completes the job with the cached locator, notifies, and returns without
invoking the transformation (its external actions are exactly the
progress-10 callback, the cache probe, and the completion callback).  The
full-PDF worker performs no cache re-check on any run. -/
theorem worker_cache_recheck_amended
    (env : WorkerEnv) (j0 : Job) (pdf_url : String) (pn : Int) (lang : String)
    (bid : Option String)
    (havail : env.babeldoc_available = true)
    (hhit : env.store (pageCacheKey bid pn lang) = true) :
    ((translate_page_async env j0 pdf_url pn lang bid).2 =
       [Event.callbackCall "processing" (some 10) none none (some pn),
        Event.checkCache (pageCacheKey bid pn lang) true,
        Event.callbackCall "completed" none
          (some (s3Url env.bucket env.region (pageCacheKey bid pn lang)))
          none (some pn)] ∧
     (translate_page_async env j0 pdf_url pn lang bid).1.getLastD j0 =
       { j0 with
           status := "completed", progress := 100,
           translated_url :=
             some (s3Url env.bucket env.region (pageCacheKey bid pn lang)) }) ∧
    (∀ j0f pdff langf bidf,
      (translate_full_pdf_async env j0f pdff langf bidf).2.filter
        Event.isCheckCache = []) := by
  refine ⟨⟨?_, ?_⟩, ?_⟩
  · simp [translate_page_async, check_s3_exists, havail, hhit]
  · simp [translate_page_async, check_s3_exists, havail, hhit]
  · intro j0f pdff langf bidf
    cases hdl : env.download_ok <;> by_cases hkey : env.api_key = "" <;>
      cases htexc : env.transform_exc <;> by_cases hrc : env.returncode = 0 <;>
      cases hof : env.output_files <;> cases huexc : env.upload_exc <;>
      simp [translate_full_pdf_async, failSteps, havail, hdl, hkey, htexc, hrc,
        hof, huexc, Event.isCheckCache]

/-- Witness instantiating C2's amended theorem at a concrete cached run. -/
theorem worker_cache_recheck_amended_witness :
    (translate_page_async envAllCached (mkPendingPageJob (some "b") 3 0)
      "http://pdf" 3 "zh" (some "b")).2 =
      [Event.callbackCall "processing" (some 10) none none (some 3),
       Event.checkCache (pageCacheKey (some "b") 3 "zh") true,
       Event.callbackCall "completed" none
         (some (s3Url envAllCached.bucket envAllCached.region
           (pageCacheKey (some "b") 3 "zh"))) none (some 3)] :=
  (worker_cache_recheck_amended envAllCached (mkPendingPageJob (some "b") 3 0)
    "http://pdf" 3 "zh" (some "b") rfl rfl).1.1

/-- A fully successful worker environment with nothing cached, parametrised
by the wall-clock timestamp the full-PDF worker reads. -/
def envSuccessAt (ts : Nat) : WorkerEnv :=
  { babeldoc_available := true, babeldoc_error := "", bucket := "bkt",
    region := "ap-southeast-1", store := fun _ => false, download_ok := true,
    download_error := "", api_key := "k", transform_exc := none,
    returncode := 0, stderr := "", output_files := ["out.pdf"],
    upload_exc := none, timestamp := ts }

/-- C3, counterexample: two successful full-PDF runs with identical job
inputs (subject `"b"`, language `"zh"`, same source URL) but different
wall-clock timestamps upload to different S3 keys — the storage key is not a
function of `(subjectId, unitSelector, targetLanguage)` alone. -/
theorem upload_key_deterministic_counterexample :
    (translate_full_pdf_async (envSuccessAt 1) (mkPendingFullJob (some "b") 0)
       "http://pdf" "zh" (some "b")).2.filterMap Event.uploadKey? =
      ["books/b/translated_1.pdf"] ∧
    (translate_full_pdf_async (envSuccessAt 2) (mkPendingFullJob (some "b") 0)
       "http://pdf" "zh" (some "b")).2.filterMap Event.uploadKey? =
      ["books/b/translated_2.pdf"] ∧
    ("books/b/translated_1.pdf" : String) ≠ "books/b/translated_2.pdf" := by
  refine ⟨rfl, rfl, by decide⟩

/-- C3, amended: every upload the single-page worker performs goes to the
deterministic key `pageCacheKey (subjectId, unitSelector, targetLanguage)` —
so two page runs with identical inputs always write the identical key — while
every upload of the full-PDF worker goes to the timestamp-dependent key
`books/{subjectId}/translated_{timestamp}.pdf`. -/
theorem upload_key_deterministic_amended
    (env : WorkerEnv) (j0 : Job) (pdf_url : String) (pn : Int) (lang : String)
    (bid : Option String) (k : String) :
    ((k ∈ (translate_page_async env j0 pdf_url pn lang bid).2.filterMap
        Event.uploadKey?) → k = pageCacheKey bid pn lang) ∧
    ((k ∈ (translate_full_pdf_async env j0 pdf_url lang bid).2.filterMap
        Event.uploadKey?) → k = fullS3Key bid env.timestamp) := by
  obtain ⟨avail, berr, bucket, region, store, dlok, dlerr, apikey, texc, rc, stde,
    ofiles, uexc, tstamp⟩ := env
  constructor
  · cases avail <;> cases hstore : store (pageCacheKey bid pn lang) <;> cases dlok <;>
      by_cases hkey : apikey = "" <;> cases texc <;> by_cases hrc : rc = 0 <;>
      cases ofiles <;> cases uexc <;>
      simp [translate_page_async, check_s3_exists, failSteps, hstore, hkey, hrc,
        Event.uploadKey?]
  · cases avail <;> cases dlok <;>
      by_cases hkey : apikey = "" <;> cases texc <;> by_cases hrc : rc = 0 <;>
      cases ofiles <;> cases uexc <;>
      simp [translate_full_pdf_async, failSteps, hkey, hrc, Event.uploadKey?]

/-- Witness instantiating C3's amended theorem at a concrete successful page
run (the membership hypothesis is discharged by evaluation). -/
theorem upload_key_deterministic_amended_witness :
    ("books/b/translated_pages/page_3_zh.pdf" : String) =
      pageCacheKey (some "b") 3 "zh" :=
  (upload_key_deterministic_amended (envSuccessAt 1)
    (mkPendingPageJob (some "b") 3 0) "http://pdf" 3 "zh" (some "b")
    "books/b/translated_pages/page_3_zh.pdf").1 (by
      simp [translate_page_async, check_s3_exists, failSteps, envSuccessAt,
        mkPendingPageJob, Event.uploadKey?, pageCacheKey, optStr]
      decide)

/-- A dispatch environment with `babeldoc` available and an empty cache. -/
def denvEmpty : DispatchEnv :=
  { babeldoc_available := true, babeldoc_error := "", bucket := "bkt",
    region := "ap-southeast-1", store := fun _ => false,
    new_job_id := "jid-1", now := 7 }

/-- A dispatch environment with `babeldoc` available and every key cached. -/
def denvCached : DispatchEnv :=
  { babeldoc_available := true, babeldoc_error := "", bucket := "bkt",
    region := "ap-southeast-1", store := fun _ => true,
    new_job_id := "jid-1", now := 7 }

/-- C4, counterexample: a full-PDF admission with `bookId` absent (and
`pdfUrl` present) is not rejected — `/translate` validates only `pdfUrl`
(line 502), so a registry entry is created and a worker is launched. -/
theorem submit_validation_counterexample :
    translateFull denvEmpty
      { bookId := none, pdfUrl := some "http://x", targetLang := none,
        callbackUrl := none } [] =
      (.accepted "jid-1" "pending" none,
       [("jid-1", mkPendingFullJob none 7)], true) := by
  simp [translateFull, denvEmpty, truthyStr, mkPendingFullJob]

/-- C4, amended: in single-unit mode an admission missing `pdfUrl`, `bookId`
or `pageNumber` fails fast with a validation error, creating no registry
entry and launching no worker; in full-PDF mode only `pdfUrl` is validated
the same way — a missing `bookId` does not fail there.  (Both guards use
Python truthiness, so an empty string behaves like an absent value.) -/
theorem submit_validation_amended
    (denv : DispatchEnv) (req : PageRequest) (freq : FullRequest)
    (jobs jobs2 : List (String × Job))
    (havail : denv.babeldoc_available = true) :
    ((!truthyStr req.pdfUrl || !truthyStr req.bookId || req.pageNumber.isNone)
        = true →
      translate_page denv req jobs =
        (.badRequest "pdfUrl, bookId and pageNumber are required", jobs, false)) ∧
    (truthyStr freq.pdfUrl = false →
      translateFull denv freq jobs2 =
        (.badRequest "pdfUrl is required", jobs2, false)) := by
  constructor
  · intro hbad
    simp [translate_page, havail, hbad]
  · intro hbad
    simp [translateFull, havail, hbad]

/-- Witness instantiating C4's amended theorem: a page admission with no
`pdfUrl` is rejected with the validation error and no state change. -/
theorem submit_validation_amended_witness :
    translate_page denvEmpty
      { bookId := some "b", pdfUrl := none, pageNumber := some 3,
        targetLang := none, callbackUrl := none } [] =
      (.badRequest "pdfUrl, bookId and pageNumber are required", [], false) :=
  (submit_validation_amended denvEmpty
    { bookId := some "b", pdfUrl := none, pageNumber := some 3,
      targetLang := none, callbackUrl := none }
    { bookId := none, pdfUrl := some "x", targetLang := none,
      callbackUrl := none } [] [] rfl).1 rfl

/-- C5: a single-page admission whose `(subjectId, unitSelector,
targetLanguage)` key is already in the cache returns the terminal
`completed` response with the cached locator synchronously, leaves the
registry unchanged, and launches no worker (lines 449–459). -/
theorem submit_cache_hit_short_circuit
    (denv : DispatchEnv) (req : PageRequest) (jobs : List (String × Job))
    (pn : Int)
    (havail : denv.babeldoc_available = true)
    (hpdf : truthyStr req.pdfUrl = true)
    (hbook : truthyStr req.bookId = true)
    (hpn : req.pageNumber = some pn)
    (hhit : denv.store (pageCacheKey req.bookId pn (req.targetLang.getD "zh"))
        = true) :
    translate_page denv req jobs =
      (.cachedCompleted pn
        (s3Url denv.bucket denv.region
          (pageCacheKey req.bookId pn (req.targetLang.getD "zh"))),
       jobs, false) := by
  simp [translate_page, havail, hpdf, hbook, hpn, hhit]

/-- Witness instantiating C5 at a concrete cached admission. -/
theorem submit_cache_hit_short_circuit_witness :
    translate_page denvCached
      { bookId := some "b", pdfUrl := some "http://x", pageNumber := some 3,
        targetLang := none, callbackUrl := none } [] =
      (.cachedCompleted 3
        (s3Url denvCached.bucket denvCached.region
          (pageCacheKey (some "b") 3 "zh")),
       [], false) :=
  submit_cache_hit_short_circuit denvCached
    { bookId := some "b", pdfUrl := some "http://x", pageNumber := some 3,
      targetLang := none, callbackUrl := none } [] 3 rfl rfl rfl rfl rfl

/-- C10: a non-cached single-page admission answers with `status:
"processing"` (line 480) while the registry entry it just created holds
`status: "pending"` (line 464) — so an immediate status query for the
returned job id reports `"pending"` although the submit response said
`"processing"`. -/
theorem submit_response_status_mismatch
    (denv : DispatchEnv) (req : PageRequest) (jobs : List (String × Job))
    (pn : Int)
    (havail : denv.babeldoc_available = true)
    (hpdf : truthyStr req.pdfUrl = true)
    (hbook : truthyStr req.bookId = true)
    (hpn : req.pageNumber = some pn)
    (hmiss : denv.store (pageCacheKey req.bookId pn (req.targetLang.getD "zh"))
        = false) :
    translate_page denv req jobs =
      (.accepted denv.new_job_id "processing" (some pn),
       (denv.new_job_id, mkPendingPageJob req.bookId pn denv.now) :: jobs,
       true) ∧
    (mkPendingPageJob req.bookId pn denv.now).status = "pending" ∧
    status ((denv.new_job_id, mkPendingPageJob req.bookId pn denv.now) :: jobs)
        denv.new_job_id =
      .ok { jobId := denv.new_job_id, status := "pending", progress := 0,
            pageNumber := some pn, translatedUrl := none, error := none } := by
  refine ⟨?_, rfl, ?_⟩
  · simp [translate_page, havail, hpdf, hbook, hpn, hmiss]
  · simp [status, List.lookup, mkPendingPageJob]

/-- Witness instantiating C10 at a concrete non-cached admission. -/
theorem submit_response_status_mismatch_witness :
    translate_page denvEmpty
      { bookId := some "b", pdfUrl := some "http://x", pageNumber := some 3,
        targetLang := none, callbackUrl := none } [] =
      (.accepted denvEmpty.new_job_id "processing" (some 3),
       (denvEmpty.new_job_id, mkPendingPageJob (some "b") 3 denvEmpty.now) :: [],
       true) :=
  (submit_response_status_mismatch denvEmpty
    { bookId := some "b", pdfUrl := some "http://x", pageNumber := some 3,
      targetLang := none, callbackUrl := none } [] 3 rfl rfl rfl rfl rfl).1

/-- A worker environment in which the transformation exits non-zero with
diagnostic output on stderr. -/
def envRcFail : WorkerEnv :=
  { babeldoc_available := true, babeldoc_error := "", bucket := "bkt",
    region := "ap-southeast-1", store := fun _ => false, download_ok := true,
    download_error := "", api_key := "k", transform_exc := none,
    returncode := 1, stderr := "boom: page object missing",
    output_files := [], upload_exc := none, timestamp := 0 }

/-- C7: when the transformation exits non-zero, both workers end the job
`failed` with `error = "babeldoc failed: " ++ stderr[:500]` (lines 193–195 and
316–317) — a bounded string carrying the first at-most-500 characters of the
transformer's diagnostic output. -/
theorem transform_failure_truncated_diag
    (env : WorkerEnv) (pdf_url : String) (pn : Int) (lang : String)
    (bid : Option String) (now ts : Nat)
    (havail : env.babeldoc_available = true)
    (hmiss : env.store (pageCacheKey bid pn lang) = false)
    (hdl : env.download_ok = true)
    (hkey : ¬env.api_key = "")
    (htexc : env.transform_exc = none)
    (hrc : ¬env.returncode = 0) :
    (pageTrace env (mkPendingPageJob bid pn now) pdf_url pn lang bid).getLastD
        (mkPendingPageJob bid pn now) =
      { status := "failed", progress := 30, book_id := bid,
        page_number := some pn, created_at := now, translated_url := none,
        error := some ("babeldoc failed: " ++ pySlice 500 env.stderr),
        file_path := none } ∧
    (fullTrace env (mkPendingFullJob bid ts) pdf_url lang bid).getLastD
        (mkPendingFullJob bid ts) =
      { status := "failed", progress := 30, book_id := bid,
        page_number := none, created_at := ts, translated_url := none,
        error := some ("babeldoc failed: " ++ pySlice 500 env.stderr),
        file_path := none } ∧
    (pySlice 500 env.stderr).length ≤ 500 ∧
    env.stderr.data = (pySlice 500 env.stderr).data ++ env.stderr.data.drop 500 := by
  refine ⟨?_, ?_, ?_, ?_⟩
  · simp [pageTrace, translate_page_async, check_s3_exists, failSteps,
      mkPendingPageJob, havail, hmiss, hdl, hkey, htexc, hrc]
  · simp [fullTrace, translate_full_pdf_async, failSteps, mkPendingFullJob,
      havail, hdl, hkey, htexc, hrc]
  · simp only [pySlice, String.length, List.length_take]
    omega
  · simp only [pySlice]
    exact (List.take_append_drop 500 env.stderr.data).symm

/-- Witness instantiating C7 at a concrete non-zero exit. -/
theorem transform_failure_truncated_diag_witness :
    (pageTrace envRcFail (mkPendingPageJob (some "b") 3 0) "http://pdf" 3 "zh"
        (some "b")).getLastD (mkPendingPageJob (some "b") 3 0) =
      { status := "failed", progress := 30, book_id := some "b",
        page_number := some 3, created_at := 0, translated_url := none,
        error := some ("babeldoc failed: " ++ pySlice 500 envRcFail.stderr),
        file_path := none } :=
  (transform_failure_truncated_diag envRcFail "http://pdf" 3 "zh" (some "b")
    0 0 rfl rfl rfl (by decide) rfl (by decide)).1

/-- C8: `send_callback` never raises to its caller — the `try/except` makes
every outcome of the HTTP post, including a raised exception, a normal
return — and it leaves the job registry untouched; when no callback URL is
supplied no payload is even built. -/
theorem notify_swallows_and_frames
    (env : NotifyEnv) (callback_url book_id : Option String) (st : String)
    (progress : Option Nat) (turl errm : Option String) (pn : Option Int)
    (jobs : List (String × Job)) :
    send_callback env callback_url book_id st progress turl errm pn jobs =
      .ok (jobs,
        if truthyStr callback_url
        then some (mkPayload book_id st progress turl errm pn)
        else none) := by
  unfold send_callback
  cases hurl : truthyStr callback_url <;> cases hpost : env.post_result <;>
    simp [hurl, hpost]

/-- Any registry value looked up in a registry whose entries all have
`file_path` unset has `file_path` unset. -/
theorem lookup_file_path_none (jobs : List (String × Job))
    (h : ∀ p ∈ jobs, (p.2 : Job).file_path = none) (id : String) (job : Job)
    (hl : jobs.lookup id = some job) : job.file_path = none := by
  induction jobs with
  | nil => simp [List.lookup] at hl
  | cons p rest ih =>
    cases hbeq : (id == p.1)
    · refine ih (fun q hq => h q (List.mem_cons_of_mem _ hq)) ?_
      simpa [List.lookup, hbeq] using hl
    · have : p.2 = job := by simpa [List.lookup, hbeq] using hl
      exact this ▸ h p (List.mem_cons_self p rest)

set_option maxHeartbeats 2000000 in
/-- C9: no write in either worker (or dispatcher) ever sets `file_path` —
every registry value of every run keeps it unset — and on any registry whose
entries all have `file_path` unset, `download` answers a not-found error for
every job id: the `send_file` branch (lines 554–559) is unreachable. -/
theorem download_always_not_found :
    (∀ (env : WorkerEnv) (pdf_url : String) (pn : Int) (lang : String)
       (bid : Option String) (now : Nat),
       ∀ j ∈ pageTrace env (mkPendingPageJob bid pn now) pdf_url pn lang bid,
         j.file_path = none) ∧
    (∀ (env : WorkerEnv) (pdf_url lang : String) (bid : Option String)
       (ts : Nat),
       ∀ j ∈ fullTrace env (mkPendingFullJob bid ts) pdf_url lang bid,
         j.file_path = none) ∧
    (∀ jobs : List (String × Job),
       (∀ p ∈ jobs, (p.2 : Job).file_path = none) →
       ∀ (id : String) (fe : String → Bool),
         ∃ m, download fe jobs id = .notFound m) := by
  refine ⟨?_, ?_, ?_⟩
  · intro env pdf_url pn lang bid now
    obtain ⟨avail, berr, bucket, region, store, dlok, dlerr, apikey, texc, rc,
      stde, ofiles, uexc, tstamp⟩ := env
    cases avail <;> cases hstore : store (pageCacheKey bid pn lang) <;>
      cases dlok <;> by_cases hkey : apikey = "" <;> cases texc <;>
      by_cases hrc : rc = 0 <;> cases ofiles <;> cases uexc <;>
      simp [pageTrace, translate_page_async, check_s3_exists, failSteps,
        mkPendingPageJob, hstore, hkey, hrc]
  · intro env pdf_url lang bid ts
    obtain ⟨avail, berr, bucket, region, store, dlok, dlerr, apikey, texc, rc,
      stde, ofiles, uexc, tstamp⟩ := env
    cases avail <;> cases dlok <;> by_cases hkey : apikey = "" <;> cases texc <;>
      by_cases hrc : rc = 0 <;> cases ofiles <;> cases uexc <;>
      simp [fullTrace, translate_full_pdf_async, failSteps, mkPendingFullJob,
        hkey, hrc]
  · intro jobs h id fe
    cases hl : jobs.lookup id with
    | none => exact ⟨"Job not found", by simp [download, hl]⟩
    | some job =>
      have hfp : job.file_path = none := lookup_file_path_none jobs h id job hl
      exact ⟨"File not found", by simp [download, hl, hfp, truthyStr]⟩

/-- Witness instantiating C9's registry part: `download` on a registry
holding one completed-looking job still answers not-found. -/
theorem download_always_not_found_witness :
    ∃ m, download (fun _ => true)
      [("jid-1", mkPendingPageJob (some "b") 1 0)] "jid-1" = .notFound m :=
  download_always_not_found.2.2 [("jid-1", mkPendingPageJob (some "b") 1 0)]
    (by simp [mkPendingPageJob]) "jid-1" (fun _ => true)
